import Mathlib

/-
Verification of the Sharks News Aggregator enrichment, ingestion and roster
pipelines (api/app/tasks/enrich.py, ingest.py, sync_roster.py and
api/app/services/ollama.py), shallowly embedded in Lean 4.

Conventions of the embedding:
* Python strings are Lean `String`s; `str.lower()` is `String.toLower`
  (the repository only handles ASCII keywords, where the two agree).
* Python lists are Lean `List`s; Python `set` operations are modelled by
  deduplicating list operations (`List.dedup`), which agree with sets on
  cardinalities and membership.
* Database tables are Lean lists of rows, in table order; SQLAlchemy
  `query(...).filter(...)` is `List.filter`, `.first()` is `List.find?`,
  `db.add` appends a row.  Primary-key columns are assumed unique where the
  source deletes/updates rows through their primary key.
* `datetime` values are integers (seconds); `datetime.utcnow()` becomes an
  explicit `now : Int` parameter threaded to the functions that call it.
* Python floats are modelled by exact rationals `ℚ`; the float literals
  0.55, 0.35, 0.10, 0.62, 0.50, 0.40, 0.000001 of the source are the
  corresponding rational literals.
-/

/-! ### Generic helpers: Python string primitives.

Lean's own `String.toLower`, `String.trim`, ... are byte-position based and
do not reduce well inside the kernel, so the Python string primitives the
source uses are modelled directly on the character list of the string.  The
repository only compares ASCII keywords, where these agree with Python. -/

/-- ASCII lower-casing of one character (Python `str.lower` on ASCII). -/
def pyCharLower (c : Char) : Char :=
  if 65 ≤ c.toNat ∧ c.toNat ≤ 90 then Char.ofNat (c.toNat + 32) else c

/-- ASCII upper-casing of one character (Python `str.upper` on ASCII). -/
def pyCharUpper (c : Char) : Char :=
  if 97 ≤ c.toNat ∧ c.toNat ≤ 122 then Char.ofNat (c.toNat - 32) else c

/-- Python `s.lower()`. -/
def pyLower (s : String) : String := ⟨s.data.map pyCharLower⟩

/-- Python `s.upper()`. -/
def pyUpper (s : String) : String := ⟨s.data.map pyCharUpper⟩

/-- Python whitespace characters (space, tab, newline, CR, VT, FF). -/
def isPyWhitespace (c : Char) : Bool :=
  c.toNat = 32 || c.toNat = 9 || c.toNat = 10 || c.toNat = 13 || c.toNat = 11 || c.toNat = 12

/-- Python `s.strip()` on a character list. -/
def pyStripChars (cs : List Char) : List Char :=
  ((cs.dropWhile isPyWhitespace).reverse.dropWhile isPyWhitespace).reverse

/-- Python `s.strip()`. -/
def pyStrip (s : String) : String := ⟨pyStripChars s.data⟩

/-- Substring occurrence on character lists: Python `needle in hay`. -/
def listContainsSub (hay needle : List Char) : Bool :=
  match hay with
  | [] => needle.isEmpty
  | _ :: rest => needle.isPrefixOf hay || listContainsSub rest needle

/-- Python `needle in hay` for strings. -/
def strContains (hay needle : String) : Bool :=
  listContainsSub hay.data needle.data

/-! ### Entity table (api/app/models/entity.py) -/

/-- Row of the `entities` table: players, coaches, teams, staff. -/
structure Entity where
  id : Nat
  name : String
  slug : String
  entityType : String
  deriving Repr, DecidableEq

/-! ### filter_team_entities (enrich.py lines 400-426) -/

/-- Embeds `filter_team_entities(db, entity_ids)`: if the id list is empty
return `[]`, else the ids of the rows of the entity table whose id is in
`entityIds` and whose type is not `team`. -/
def filter_team_entities (entityDb : List Entity) (entityIds : List Nat) : List Nat :=
  if entityIds.isEmpty then []
  else (entityDb.filter (fun e => decide (e.id ∈ entityIds) && e.entityType != "team")).map (fun e => e.id)

/-! ### check_sharks_relevance (enrich.py lines 218-257) -/

/-- The topic keywords checked against the lowercased title. -/
def sharks_keywords : List String :=
  ["sharks", "sj sharks", "barracuda", "sap center"]

/-- Embeds `check_sharks_relevance(db, title, entity_ids)`: true when the
lowercased title contains one of `sharks_keywords`, or when the filtered
non-team entity list is non-empty. -/
def check_sharks_relevance (entityDb : List Entity) (title : String) (entityIds : List Nat) : Bool :=
  let textLower := pyLower title
  if sharks_keywords.any (fun kw => strContains textLower kw) then true
  else !(filter_team_entities entityDb entityIds).isEmpty

/-! ### ValidationLog table (api/app/models/validation_log.py) and the
relevance-filter step of enrich_raw_item (enrich.py lines 44-53).

The relevance step of `enrich_raw_item` calls `check_sharks_relevance`,
which only reads the session; neither writes `validation_logs` rows, so the
step leaves that table unchanged. -/

/-- Row of the `validation_logs` table. -/
structure ValidationLogRow where
  rawItemId : Nat
  method : String
  result : String
  errorMessage : Option String
  latencyMs : Option Nat
  deriving Repr, DecidableEq

/-- The validation-log table state threaded through the relevance step. -/
structure ValidationState where
  validationLogs : List ValidationLogRow
  deriving Repr, DecidableEq

/-- Embeds the relevance-filter step of `enrich_raw_item` (enrich.py lines
44-53): it returns the boolean verdict of `check_sharks_relevance` and the
validation-log table as the source leaves it (no insert is performed by the
source anywhere on this path). -/
def relevance_filter_step (entityDb : List Entity) (vs : ValidationState)
    (title : String) (entityIds : List Nat) : Bool × ValidationState :=
  (check_sharks_relevance entityDb title entityIds, vs)

/-! ### Theorems for claims C4 and C5 -/

theorem filter_team_entities_mem (entityDb : List Entity) (entityIds : List Nat) (i : Nat) :
    i ∈ filter_team_entities entityDb entityIds ↔
      ∃ e ∈ entityDb, e.id = i ∧ e.id ∈ entityIds ∧ e.entityType ≠ "team" := by
  unfold filter_team_entities
  by_cases h : entityIds.isEmpty
  · simp only [h, if_pos]
    simp only [List.isEmpty_iff] at h
    subst h
    simp
  · simp only [h, if_neg, Bool.false_eq_true, not_false_iff]
    simp only [List.mem_map, List.mem_filter, Bool.and_eq_true,
      decide_eq_true_eq, bne_iff_ne, ne_eq]
    constructor
    · rintro ⟨e, ⟨he, hid, hty⟩, rfl⟩
      exact ⟨e, he, rfl, hid, hty⟩
    · rintro ⟨e, he, rfl, hid, hty⟩
      exact ⟨e, ⟨he, hid, hty⟩, rfl⟩

/-- C4: the keyword relevance check returns `true` iff the title contains a
configured topic keyword or the extracted entity list contains at least one
non-team entity known to the entity table; consequently every input with no
keyword hit in the title and only team entities is rejected. -/
theorem check_sharks_relevance_iff (entityDb : List Entity) (title : String) (entityIds : List Nat) :
    check_sharks_relevance entityDb title entityIds = true ↔
      (∃ kw ∈ sharks_keywords, strContains (pyLower title) kw = true) ∨
      (∃ e ∈ entityDb, e.id ∈ entityIds ∧ e.entityType ≠ "team") := by
  unfold check_sharks_relevance
  by_cases h : sharks_keywords.any (fun kw => strContains (pyLower title) kw) = true
  · simp only [h, if_pos]
    simp only [List.any_eq_true] at h
    simp [h]
  · simp only [h, if_neg, Bool.false_eq_true, not_false_iff]
    simp only [List.any_eq_true] at h
    push_neg at h
    constructor
    · intro hne
      right
      rcases List.exists_mem_of_ne_nil _ (by simpa [List.isEmpty_iff] using hne) with ⟨i, hi⟩
      rcases (filter_team_entities_mem entityDb entityIds i).1 hi with ⟨e, he, _, hid, hty⟩
      exact ⟨e, he, hid, hty⟩
    · rintro (⟨kw, hkw, hc⟩ | ⟨e, he, hid, hty⟩)
      · exact absurd hc (by simpa using h kw hkw)
      · have hm : e.id ∈ filter_team_entities entityDb entityIds :=
          (filter_team_entities_mem entityDb entityIds e.id).2 ⟨e, he, rfl, hid, hty⟩
        simp only [Bool.not_eq_true', List.isEmpty_eq_false]
        exact List.ne_nil_of_mem hm

/-! ### _word_boundary_match (enrich.py lines 207-215) and
extract_entities (enrich.py lines 137-184).

The source matches the regex
`(?:^|[\s,.:;!?'"()])term(?:[\s,.:;!?'"()]|$)` against the text: the term
must occur with a boundary character (or the string edge) on both sides.
Hyphens are deliberately not boundary characters. -/

/-- The regex boundary class `[\s,.:;!?'"()]`: whitespace or one of
the characters , . : ; ! ? ' " ( ). -/
def boundaryChar (c : Char) : Bool :=
  isPyWhitespace c || c.toNat = 44 || c.toNat = 46 || c.toNat = 58 || c.toNat = 59 ||
    c.toNat = 33 || c.toNat = 63 || c.toNat = 39 || c.toNat = 34 || c.toNat = 40 || c.toNat = 41

/-- The term matches at the head of `text` and is followed by a boundary
character or the end of the string. -/
def matchesHere (term text : List Char) : Bool :=
  term.isPrefixOf text &&
    (match text.drop term.length with
     | [] => true
     | c :: _ => boundaryChar c)

/-- Scan of all positions of the text; `prevBoundary` records whether the
current position is the start of the string or preceded by a boundary
character. -/
def wbScan (term : List Char) : List Char → Bool → Bool
  | [], _ => false
  | c :: rest, prevBoundary =>
    (prevBoundary && matchesHere term (c :: rest)) || wbScan term rest (boundaryChar c)

/-- Embeds `_word_boundary_match(term, text)`: the term occurs in the text
with the regex boundary on both sides (string edges count as boundaries). -/
def word_boundary_match (term text : String) : Bool :=
  wbScan term.data text.data true

/-- Last names that are also common English words or very common surnames
(COMMON_WORD_NAMES, enrich.py lines 196-204). -/
def COMMON_WORD_NAMES : List String :=
  ["white", "brown", "green", "black", "gray", "grey", "young", "king",
   "cook", "hill", "wood", "stone", "rice", "rose", "wolf", "fox",
   "burns", "powers", "waters", "fields", "banks", "cross", "church",
   "price", "best", "land", "day", "long", "strong", "power", "chase",
   "smith", "johnson", "jones", "miller", "wilson", "moore", "taylor"]

/-- Python `name.split()`: split a character list on whitespace runs,
dropping empty pieces.  The accumulator holds the current word reversed. -/
def pySplitWsAux : List Char → List Char → List (List Char)
  | [], acc => if acc.isEmpty then [] else [acc.reverse]
  | c :: rest, acc =>
    if isPyWhitespace c then
      if acc.isEmpty then pySplitWsAux rest [] else acc.reverse :: pySplitWsAux rest []
    else pySplitWsAux rest (c :: acc)

/-- Python `name.split()[-1].lower()`, as used for the last-name match.
(The source would raise on an all-whitespace name; such names do not occur
and the model returns the empty string, which the length gate discards.) -/
def pyLastToken (name : String) : String :=
  pyLower ⟨(pySplitWsAux name.data []).getLastD []⟩

/-- Keywords of `_has_sharks_context` (enrich.py lines 187-192). -/
def sharks_context_keywords : List String :=
  ["sharks", "sj sharks", "san jose", "barracuda", "sap center"]

/-- Embeds `_has_sharks_context(text_lower)`. -/
def has_sharks_context (textLower : String) : Bool :=
  sharks_context_keywords.any (fun kw => strContains textLower kw)

/-- Condition of the full-name branch of `extract_entities`. -/
def fullNameMatch (e : Entity) (textLower : String) : Bool :=
  word_boundary_match (pyLower e.name) textLower

/-- Condition of the last-name-only branch of `extract_entities` (reached
only when the full-name match failed): the name contains a space, its last
token is not blocklisted, is at least 5 characters long, and occurs in the
text with word boundaries. -/
def lastNameMatch (e : Entity) (textLower : String) : Bool :=
  !fullNameMatch e textLower &&
    e.name.data.contains (Char.ofNat 32) &&
    !COMMON_WORD_NAMES.contains (pyLastToken e.name) &&
    decide (5 ≤ (pyLastToken e.name).length) &&
    word_boundary_match (pyLastToken e.name) textLower

/-- Embeds `extract_entities(db, text)`: full-name matches are always
collected; last-name-only matches are appended only when the text has
Sharks context. -/
def extract_entities (entityDb : List Entity) (text : String) : List Nat :=
  let textLower := pyLower text
  let hasCtx := has_sharks_context textLower
  let fullIds := (entityDb.filter (fun e => fullNameMatch e textLower)).map (fun e => e.id)
  let lastIds := (entityDb.filter (fun e => lastNameMatch e textLower)).map (fun e => e.id)
  if hasCtx then fullIds ++ lastIds else fullIds

/-- C6: membership in the result of `extract_entities` — an id is returned
iff some entity row carries it and either its full name occurs with word
boundaries in the lowercased text, or (last-name-only route) the text has a
topic-context keyword, the full name does not occur, the name has several
whitespace-separated tokens (it contains a space), its last token is not in
the common-word blocklist, has length at least 5, and occurs in the text
with word boundaries.  Additionally, a hyphen is not a boundary character. -/
theorem extract_entities_iff :
    (∀ (entityDb : List Entity) (text : String) (i : Nat),
      i ∈ extract_entities entityDb text ↔
        ∃ e ∈ entityDb, e.id = i ∧
          (fullNameMatch e (pyLower text) = true ∨
            (has_sharks_context (pyLower text) = true ∧
             fullNameMatch e (pyLower text) = false ∧
             e.name.data.contains (Char.ofNat 32) = true ∧
             COMMON_WORD_NAMES.contains (pyLastToken e.name) = false ∧
             5 ≤ (pyLastToken e.name).length ∧
             word_boundary_match (pyLastToken e.name) (pyLower text) = true))) ∧
    boundaryChar (Char.ofNat 45) = false := by
  refine ⟨?_, by decide⟩
  intro entityDb text i
  unfold extract_entities
  by_cases hctx : has_sharks_context (pyLower text) = true
  · simp only [hctx, if_pos, List.mem_append, List.mem_map, List.mem_filter]
    constructor
    · rintro (⟨e, ⟨he, hf⟩, rfl⟩ | ⟨e, ⟨he, hl⟩, rfl⟩)
      · exact ⟨e, he, rfl, Or.inl hf⟩
      · unfold lastNameMatch at hl
        simp only [Bool.and_eq_true, Bool.not_eq_true', decide_eq_true_eq] at hl
        exact ⟨e, he, rfl, Or.inr ⟨by simp [hctx], hl.1.1.1.1, hl.1.1.1.2, hl.1.1.2, hl.1.2, hl.2⟩⟩
    · rintro ⟨e, he, rfl, hf | ⟨-, hnf, hsp, hcm, hlen, hwb⟩⟩
      · exact Or.inl ⟨e, ⟨he, hf⟩, rfl⟩
      · refine Or.inr ⟨e, ⟨he, ?_⟩, rfl⟩
        unfold lastNameMatch
        simp only [Bool.and_eq_true, Bool.not_eq_true', decide_eq_true_eq]
        exact ⟨⟨⟨⟨hnf, hsp⟩, hcm⟩, hlen⟩, hwb⟩
  · simp only [hctx, if_neg, Bool.false_eq_true, not_false_iff, List.mem_map, List.mem_filter]
    constructor
    · rintro ⟨e, ⟨he, hf⟩, rfl⟩
      exact ⟨e, he, rfl, Or.inl hf⟩
    · rintro ⟨e, he, rfl, hf | ⟨hc, -⟩⟩
      · exact ⟨e, ⟨he, hf⟩, rfl⟩
      · exact hc.elim

/-! ### Clustering data model (api/app/models/cluster.py and friends) -/

/-- Row of the `clusters` table (fields used by the clusterer).  Event type
and status enums are carried as their string values. -/
structure Cluster where
  id : Nat
  headline : String
  eventType : String
  status : String
  firstSeenAt : Int
  lastSeenAt : Int
  sourceCount : Nat
  tokens : List String
  entitiesAgg : List Nat
  deriving Repr, DecidableEq

/-- Row of the `story_variants` table (fields used by the clusterer). -/
structure StoryVariant where
  id : Nat
  title : String
  url : String
  publishedAt : Option Int
  eventType : String
  tokens : List String
  entities : List Nat
  deriving Repr, DecidableEq

/-- Row of the `sources` table (field used by tagging). -/
structure SourceRow where
  id : Nat
  category : String
  deriving Repr, DecidableEq

/-- Row of the `tags` table. -/
structure TagRow where
  id : Nat
  name : String
  slug : String
  deriving Repr, DecidableEq

/-- Row of the `cluster_variants` link table. -/
structure ClusterVariantRow where
  clusterId : Nat
  variantId : Nat
  similarityScore : ℚ
  deriving Repr, DecidableEq

/-- The cluster-side database state threaded through the clusterer:
clusters, the `cluster_entities` and `cluster_tags` link tables (pairs of
(cluster_id, entity_id) resp. (cluster_id, tag_id)), the `cluster_variants`
links, the tags table and its id counter. -/
structure EnrichState where
  clusters : List Cluster
  clusterEntities : List (Nat × Nat)
  clusterVariants : List ClusterVariantRow
  tags : List TagRow
  clusterTags : List (Nat × Nat)
  nextTagId : Nat
  deriving Repr, DecidableEq

/-! ### Clustering settings (api/app/core/config.py lines 20-23) -/

/-- The clustering thresholds of `Settings`. -/
structure Settings where
  cluster_similarity_threshold : ℚ
  entity_overlap_threshold : ℚ
  token_similarity_threshold : ℚ

/-- Default settings values 0.62, 0.50, 0.40 (config.py). -/
def settings : Settings :=
  { cluster_similarity_threshold := 0.62
    entity_overlap_threshold := 0.50
    token_similarity_threshold := 0.40 }

/-! ### Similarity scores (enrich.py lines 429-509) -/

/-- Embeds `entity_overlap_score(entities_v, entities_c)`:
`len(set(v) & set(c)) / max(len(v), len(c))`, and 0 when either list is
empty.  Note the denominator uses the raw list lengths, as in the source. -/
def entity_overlap_score (entities_v entities_c : List Nat) : ℚ :=
  if entities_v.isEmpty || entities_c.isEmpty then 0
  else
    let intersection := (entities_v.dedup.filter (fun x => entities_c.contains x)).length
    let denominator := max entities_v.length entities_c.length
    (intersection : ℚ) / (denominator : ℚ)

/-- Embeds `jaccard_similarity(tokens_v, tokens_c)`:
`|set(v) ∩ set(c)| / max(1, |set(v) ∪ set(c)|)`, and 0 when either list is
empty. -/
def jaccard_similarity (tokens_v tokens_c : List String) : ℚ :=
  if tokens_v.isEmpty || tokens_c.isEmpty then 0
  else
    let intersection := (tokens_v.dedup.filter (fun t => tokens_c.contains t)).length
    let union := (tokens_v ++ tokens_c).dedup.length
    (intersection : ℚ) / ((max 1 union : Nat) : ℚ)

/-- The compatible event pairs of `event_compatibility_score`. -/
def compatible_pairs : List (String × String) :=
  [("trade", "signing"), ("signing", "trade"),
   ("lineup", "game"), ("game", "lineup"),
   ("recall", "lineup"), ("lineup", "recall")]

/-- Embeds `event_compatibility_score(event_v, event_c)`: 1 on equality,
0.5 on a compatible pair, 0 otherwise. -/
def event_compatibility_score (event_v event_c : String) : ℚ :=
  if event_v = event_c then 1
  else if compatible_pairs.contains (event_v, event_c) then 0.5
  else 0

/-- Embeds `is_match(E, T, S, entities_v)` (enrich.py lines 492-509):
entity gate (`E >= 0.50` when the variant has non-team entities, otherwise
`T >= 0.40`) and score gate (`S >= 0.62`). -/
def is_match (E T S : ℚ) (entities_v : List Nat) : Bool :=
  let entity_gate :=
    if 0 < entities_v.length then decide (settings.entity_overlap_threshold ≤ E)
    else decide (settings.token_similarity_threshold ≤ T)
  let score_gate := decide (settings.cluster_similarity_threshold ≤ S)
  entity_gate && score_gate

/-- Embeds `get_time_window_for_event(event_type)` (enrich.py lines
512-528), in seconds: 72h for most types, 24h for game, 12h for opinion. -/
def get_time_window_for_event (eventType : String) : Int :=
  if ["trade", "injury", "lineup", "recall", "waiver", "signing", "prospect", "other"].contains eventType
  then 72 * 3600
  else if eventType = "game" then 24 * 3600
  else if eventType = "opinion" then 12 * 3600
  else 72 * 3600

/-! ### Event keyword counting and tagging (enrich.py lines 285-311 and
637-707) -/

/-- The event keyword table of `count_event_keyword_matches`. -/
def event_keywords : List (String × List String) :=
  [("trade", ["trade", "traded", "acquire", "acquired", "dealt"]),
   ("injury", ["injury", "injured", "injured reserve", "day-to-day", "out indefinitely", "week-to-week"]),
   ("lineup", ["lineup", "lines", "starting", "scratched", "scratch"]),
   ("recall", ["recall", "recalled", "call up", "called up", "promote"]),
   ("waiver", ["waiver", "waivers", "claimed", "claim"]),
   ("signing", ["sign", "signed", "contract", "extension", "agree to terms"]),
   ("prospect", ["prospect", "draft", "drafted", "junior", "development"]),
   ("game", ["game", "win", "loss", "score", "final", "vs", "defeat", "beat", "period", "goal", "assist", "shutout", "overtime", "recap"]),
   ("opinion", ["think", "believe", "opinion", "analysis", "why", "should"])]

/-- Embeds `count_event_keyword_matches(text_lower)`: for each event
category, the number of its keywords occurring in the text; only categories
with a positive count are kept (dict modelled as an association list in
insertion order). -/
def count_event_keyword_matches (textLower : String) : List (String × Nat) :=
  (event_keywords.map (fun p => (p.1, p.2.countP (fun kw => strContains textLower kw)))).filter
    (fun p => decide (0 < p.2))

/-- The event-to-display-tag table of `classify_tags` (enrich.py lines
673-682).  Note it has entries for eight of the nine keyword categories:
`opinion` has no display tag. -/
def event_tag_map : List (String × String) :=
  [("trade", "Trade"), ("injury", "Injury"), ("lineup", "Lineup"), ("recall", "Recall"),
   ("waiver", "Waiver"), ("signing", "Signing"), ("prospect", "Prospect"), ("game", "Game")]

/-- The rumor-language phrases of `classify_tags`. -/
def rumor_phrases : List String :=
  ["hearing", "sources say", "linked to", "in talks", "rumor", "reportedly"]

/-- Embeds `classify_tags(variant, source)` (enrich.py lines 663-707):
all event tags whose category has a keyword hit in the lowercased title,
then the Barracuda tag, the Rumors tag (rumor language and a press source),
and the Official tag (official source). -/
def classify_tags (variant : StoryVariant) (source : SourceRow) : List String :=
  let textLower := pyLower variant.title
  let matchCounts := count_event_keyword_matches textLower
  let eventTags := event_tag_map.filterMap
    (fun p => if matchCounts.any (fun m => m.1 == p.1) then some p.2 else none)
  let urlLower := pyLower variant.url
  let barracudaTags :=
    if strContains textLower "barracuda" || strContains urlLower "sjbarracuda"
    then ["Barracuda"] else []
  let hasRumor := rumor_phrases.any (fun ph => strContains textLower ph)
  let rumorTags := if hasRumor && (source.category == "press") then ["Rumors"] else []
  let officialTags := if source.category == "official" then ["Official"] else []
  eventTags ++ barracudaTags ++ rumorTags ++ officialTags

/-! ### Tag slugs (api/app/models/tag.py, entity.py `make_slug`) -/

/-- ASCII `\w` after lower-casing: letters, digits, underscore. -/
def isWordChar (c : Char) : Bool :=
  (97 ≤ c.toNat && c.toNat ≤ 122) || (48 ≤ c.toNat && c.toNat ≤ 57) || c.toNat = 95 ||
    (65 ≤ c.toNat && c.toNat ≤ 90)

/-- Collapse every run of whitespace/hyphens into a single hyphen
(`re.sub(r'[-\s]+', '-', ...)`).  The flag records being inside a run. -/
def collapseDashRuns : List Char → Bool → List Char
  | [], _ => []
  | c :: rest, inRun =>
    if isPyWhitespace c || c.toNat = 45 then
      if inRun then collapseDashRuns rest true
      else Char.ofNat 45 :: collapseDashRuns rest true
    else c :: collapseDashRuns rest false

/-- Python `s.strip('-')` on a character list. -/
def stripDashes (cs : List Char) : List Char :=
  ((cs.dropWhile (fun c => c.toNat = 45)).reverse.dropWhile (fun c => c.toNat = 45)).reverse

/-- Embeds `make_slug(name)`: lowercase, drop characters that are not word
characters, whitespace or hyphens, collapse hyphen/whitespace runs to a
hyphen, strip outer hyphens. -/
def make_slug (name : String) : String :=
  let lower := (pyLower name).data
  let kept := lower.filter (fun c => isWordChar c || isPyWhitespace c || c.toNat = 45)
  ⟨stripDashes (collapseDashRuns kept false)⟩

/-! ### Cluster association helpers (enrich.py lines 618-660) -/

/-- Embeds `add_cluster_entity_associations(db, cluster, entity_ids)`:
append each missing (cluster, entity) pair. -/
def add_cluster_entity_associations (st : EnrichState) (clusterId : Nat) (entityIds : List Nat) : EnrichState :=
  entityIds.foldl
    (fun s eid =>
      if s.clusterEntities.contains (clusterId, eid) then s
      else { s with clusterEntities := s.clusterEntities ++ [(clusterId, eid)] })
    st

/-- The get-or-create-tag step of `add_cluster_tag_associations`: look the
tag up by name, else create it with a fresh id and `make_slug` slug. -/
def get_or_create_tag (s : EnrichState) (name : String) : Nat × EnrichState :=
  match s.tags.find? (fun t => t.name == name) with
  | some t => (t.id, s)
  | none =>
    (s.nextTagId,
     { s with
        tags := s.tags ++ [{ id := s.nextTagId, name := name, slug := make_slug name }]
        nextTagId := s.nextTagId + 1 })

/-- Embeds `add_cluster_tag_associations(db, cluster, tag_names)`: get or
create each tag, then append each missing (cluster, tag) pair. -/
def add_cluster_tag_associations (st : EnrichState) (clusterId : Nat) (tagNames : List String) : EnrichState :=
  tagNames.foldl
    (fun s name =>
      let r := get_or_create_tag s name
      if r.2.clusterTags.contains (clusterId, r.1) then r.2
      else { r.2 with clusterTags := r.2.clusterTags ++ [(clusterId, r.1)] })
    st

/-! ### create_cluster (enrich.py lines 531-569) and
update_cluster_metadata (enrich.py lines 572-604) -/

/-- The values of the `EventType` enum. -/
def valid_event_types : List String :=
  ["trade", "injury", "lineup", "recall", "waiver", "signing", "prospect", "game", "opinion", "other"]

/-- `EventType[event_type.upper()] if ... in EventType.__members__ else
EventType.OTHER`, on enum string values. -/
def normalize_event_type (eventType : String) : String :=
  if valid_event_types.contains eventType then eventType else "other"

/-- Embeds `create_cluster(db, variant, tokens, entities, event_type,
source)`: a fresh active cluster whose first and last seen timestamps are
the variant's published timestamp (falling back to the wall clock `now`),
with source_count 1, plus entity and tag associations. -/
def create_cluster (st : EnrichState) (variant : StoryVariant) (tokens : List String)
    (entities : List Nat) (eventType : String) (source : SourceRow) (now : Int)
    (nextClusterId : Nat) : Cluster × EnrichState :=
  let cluster : Cluster :=
    { id := nextClusterId
      headline := if variant.title == "" then "Untitled" else variant.title
      eventType := normalize_event_type eventType
      status := "active"
      firstSeenAt := variant.publishedAt.getD now
      lastSeenAt := variant.publishedAt.getD now
      sourceCount := 1
      tokens := tokens
      entitiesAgg := entities }
  let st1 := { st with clusters := st.clusters ++ [cluster] }
  let st2 := add_cluster_entity_associations st1 cluster.id entities
  let st3 := add_cluster_tag_associations st2 cluster.id (classify_tags variant source)
  (cluster, st3)

/-- Embeds `update_cluster_metadata(db, cluster, variant, tokens, entities,
source)`: sets `last_seen_at` to the wall clock `now`
(`datetime.utcnow()` in the source), bumps `source_count`, unions tokens
and aggregated entities, and adds the new entity and tag associations.
`first_seen_at` is not touched. -/
def update_cluster_metadata (st : EnrichState) (cluster : Cluster) (variant : StoryVariant)
    (tokens : List String) (entities : List Nat) (source : SourceRow) (now : Int) :
    Cluster × EnrichState :=
  let updated : Cluster :=
    { cluster with
        lastSeenAt := now
        sourceCount := cluster.sourceCount + 1
        tokens := (cluster.tokens ++ tokens).dedup
        entitiesAgg := (cluster.entitiesAgg ++ entities).dedup }
  let st1 := { st with clusters := st.clusters.map (fun c => if c.id == cluster.id then updated else c) }
  let st2 := add_cluster_entity_associations st1 cluster.id entities
  let st3 := add_cluster_tag_associations st2 cluster.id (classify_tags variant source)
  (updated, st3)

/-! ### match_or_create_cluster (enrich.py lines 314-397) -/

/-- The loop-invariant data of the candidate scan: the entity table, the
variant's team-filtered clustering entities, its tokens and event type. -/
structure ScanCtx where
  entityDb : List Entity
  clustering : List Nat
  tokens : List String
  eventType : String

/-- Entity overlap score E of a candidate cluster (its aggregated entities
are team-filtered too, enrich.py line 362). -/
def candE (ctx : ScanCtx) (c : Cluster) : ℚ :=
  entity_overlap_score ctx.clustering (filter_team_entities ctx.entityDb c.entitiesAgg)

/-- Token Jaccard score T of a candidate cluster. -/
def candT (ctx : ScanCtx) (c : Cluster) : ℚ :=
  jaccard_similarity ctx.tokens c.tokens

/-- Event compatibility score K of a candidate cluster. -/
def candK (ctx : ScanCtx) (c : Cluster) : ℚ :=
  event_compatibility_score ctx.eventType c.eventType

/-- Combined score `S = 0.55*E + 0.35*T + 0.10*K` of a candidate cluster. -/
def candS (ctx : ScanCtx) (c : Cluster) : ℚ :=
  0.55 * candE ctx c + 0.35 * candT ctx c + 0.10 * candK ctx c

/-- `is_match` of a candidate cluster's scores. -/
def candPasses (ctx : ScanCtx) (c : Cluster) : Bool :=
  is_match (candE ctx c) (candT ctx c) (candS ctx c) ctx.clustering

/-- Embeds the candidate loop of `match_or_create_cluster` (enrich.py lines
353-374): keep the current best cluster and score, replacing it when a
candidate is a match and its score exceeds the best by more than 0.000001. -/
def scan_candidates (ctx : ScanCtx) : List Cluster → Option Cluster → ℚ → Option Cluster × ℚ
  | [], best, bestScore => (best, bestScore)
  | c :: rest, best, bestScore =>
    if candPasses ctx c && decide (bestScore + 0.000001 < candS ctx c)
    then scan_candidates ctx rest (some c) (candS ctx c)
    else scan_candidates ctx rest best bestScore

/-- Embeds the candidate query of `match_or_create_cluster` (lines
339-346): active clusters first seen at or after `now` minus the event-type
time window. -/
def candidate_clusters (st : EnrichState) (now : Int) (eventType : String) : List Cluster :=
  let cutoff := now - get_time_window_for_event eventType
  st.clusters.filter (fun c => c.status == "active" && decide (cutoff ≤ c.firstSeenAt))

/-- The scan context of a `match_or_create_cluster` call. -/
def match_ctx (entityDb : List Entity) (entities : List Nat) (tokens : List String)
    (eventType : String) : ScanCtx :=
  { entityDb := entityDb
    clustering := filter_team_entities entityDb entities
    tokens := tokens
    eventType := eventType }

/-- Result of `match_or_create_cluster`: the chosen cluster id, whether it
was freshly created, the similarity stored on the ClusterVariant link
(best score, or 1.0 on the create path), and the updated state. -/
structure MatchOutcome where
  clusterId : Nat
  isNew : Bool
  similarity : ℚ
  state : EnrichState
  deriving Repr

/-- Embeds `match_or_create_cluster(db, variant, tokens, entities,
event_type, source)`: scan the candidate clusters; attach to the best
match, creating a new cluster when none matches; link the variant with the
similarity score. -/
def match_or_create_cluster (entityDb : List Entity) (st : EnrichState)
    (variant : StoryVariant) (tokens : List String) (entities : List Nat)
    (eventType : String) (source : SourceRow) (now : Int) (nextClusterId : Nat) :
    MatchOutcome :=
  let candidates := candidate_clusters st now eventType
  let ctx := match_ctx entityDb entities tokens eventType
  let r := scan_candidates ctx candidates none 0
  match r with
  | (none, _) =>
    let cr := create_cluster st variant tokens entities eventType source now nextClusterId
    let st2 := { cr.2 with clusterVariants := cr.2.clusterVariants ++ [⟨cr.1.id, variant.id, 1⟩] }
    { clusterId := cr.1.id, isNew := true, similarity := 1, state := st2 }
  | (some c, bestScore) =>
    let ur := update_cluster_metadata st c variant tokens entities source now
    let st2 := { ur.2 with clusterVariants := ur.2.clusterVariants ++ [⟨ur.1.id, variant.id, bestScore⟩] }
    { clusterId := ur.1.id, isNew := false, similarity := bestScore, state := st2 }

/-! ### Claims C2 and C9: cluster timestamps on the create and attach paths -/

/-- The empty cluster-side database state. -/
def st_empty : EnrichState :=
  { clusters := [], clusterEntities := [], clusterVariants := [], tags := [],
    clusterTags := [], nextTagId := 1 }

/-- A press source. -/
def src_press : SourceRow := { id := 1, category := "press" }

/-- C2 (amended): on the attach path the cluster's `last_seen_at` is set to
the wall-clock time of the attach — not recomputed from the member
variants' published timestamps — `first_seen_at` is unchanged,
`source_count` is bumped by one, and the cluster's tokens and aggregated
entities become the unions with the new variant's. -/
theorem update_cluster_metadata_effects (st : EnrichState) (cluster : Cluster)
    (variant : StoryVariant) (tokens : List String) (entities : List Nat)
    (source : SourceRow) (now : Int) :
    (update_cluster_metadata st cluster variant tokens entities source now).1.lastSeenAt = now ∧
    (update_cluster_metadata st cluster variant tokens entities source now).1.firstSeenAt = cluster.firstSeenAt ∧
    (update_cluster_metadata st cluster variant tokens entities source now).1.sourceCount = cluster.sourceCount + 1 ∧
    (∀ t, t ∈ (update_cluster_metadata st cluster variant tokens entities source now).1.tokens ↔
      t ∈ cluster.tokens ∨ t ∈ tokens) ∧
    (∀ i, i ∈ (update_cluster_metadata st cluster variant tokens entities source now).1.entitiesAgg ↔
      i ∈ cluster.entitiesAgg ∨ i ∈ entities) := by
  refine ⟨rfl, rfl, rfl, ?_, ?_⟩ <;>
    intro x <;>
    simp [update_cluster_metadata, List.mem_dedup, List.mem_append]

/-- A cluster as created from a first variant published at time 0. -/
def c2_cluster : Cluster :=
  { id := 1, headline := "Trade talk", eventType := "trade", status := "active",
    firstSeenAt := 0, lastSeenAt := 0, sourceCount := 1, tokens := ["trade"],
    entitiesAgg := [2] }

/-- A second variant of the same story, published at time 3600 (= T+1h for
T = 0). -/
def c2_variant : StoryVariant :=
  { id := 7, title := "Trade talk update", url := "u", publishedAt := some 3600,
    eventType := "trade", tokens := ["trade"], entities := [2] }

/-- C2 counterexample: attaching `c2_variant` (published at 3600, the
maximum member published timestamp) at wall-clock time 5000 leaves
`last_seen_at` = 5000, not 3600 as the claim requires. -/
theorem update_cluster_metadata_not_published_max :
    (update_cluster_metadata st_empty c2_cluster c2_variant ["trade"] [2] src_press 5000).1.lastSeenAt = 5000 ∧
    (update_cluster_metadata st_empty c2_cluster c2_variant ["trade"] [2] src_press 5000).1.lastSeenAt ≠ 3600 := by
  constructor
  · rfl
  · decide

/-- C9 (amended): `first_seen_at ≤ last_seen_at` holds for every freshly
created cluster, and is preserved by an attach whenever the wall-clock time
of the attach is not earlier than the cluster's `first_seen_at` (the attach
sets `last_seen_at` to the wall clock, so a cluster first seen in the
future — a future-dated published timestamp — can violate the invariant). -/
theorem cluster_first_le_last :
    (∀ (st : EnrichState) (variant : StoryVariant) (tokens : List String)
        (entities : List Nat) (eventType : String) (source : SourceRow) (now : Int)
        (nextClusterId : Nat),
      (create_cluster st variant tokens entities eventType source now nextClusterId).1.firstSeenAt ≤
        (create_cluster st variant tokens entities eventType source now nextClusterId).1.lastSeenAt) ∧
    (∀ (st : EnrichState) (cluster : Cluster) (variant : StoryVariant)
        (tokens : List String) (entities : List Nat) (source : SourceRow) (now : Int),
      cluster.firstSeenAt ≤ now →
      (update_cluster_metadata st cluster variant tokens entities source now).1.firstSeenAt ≤
        (update_cluster_metadata st cluster variant tokens entities source now).1.lastSeenAt) := by
  constructor
  · intro st variant tokens entities eventType source now nextClusterId
    exact le_refl _
  · intro st cluster variant tokens entities source now h
    simpa [update_cluster_metadata] using h

/-- Witness for `cluster_first_le_last` at concrete inputs (the update part
has the hypothesis `first_seen_at ≤ now`, discharged at 0 ≤ 5000). -/
theorem cluster_first_le_last_witness :
    (create_cluster st_empty c2_variant ["trade"] [2] "trade" src_press 0 1).1.firstSeenAt ≤
      (create_cluster st_empty c2_variant ["trade"] [2] "trade" src_press 0 1).1.lastSeenAt ∧
    (update_cluster_metadata st_empty c2_cluster c2_variant ["trade"] [2] src_press 5000).1.firstSeenAt ≤
      (update_cluster_metadata st_empty c2_cluster c2_variant ["trade"] [2] src_press 5000).1.lastSeenAt := by
  constructor
  · exact cluster_first_le_last.1 st_empty c2_variant ["trade"] [2] "trade" src_press 0 1
  · exact cluster_first_le_last.2 st_empty c2_cluster c2_variant ["trade"] [2] src_press 5000 (by decide)

/-- Witness for `update_cluster_metadata_effects` at a concrete input: the
source count goes from 1 to 2. -/
theorem update_cluster_metadata_effects_witness :
    (update_cluster_metadata st_empty c2_cluster c2_variant ["trade"] [2] src_press 5000).1.sourceCount = 2 := by
  rw [(update_cluster_metadata_effects st_empty c2_cluster c2_variant ["trade"] [2]
    src_press 5000).2.2.1]
  rfl

/-- A variant whose feed-supplied published timestamp (100) lies in the
future of the wall clock at ingest time (10). -/
def c9_future_variant : StoryVariant :=
  { id := 3, title := "Signing soon", url := "", publishedAt := some 100,
    eventType := "signing", tokens := ["signed"], entities := [] }

/-- A second variant of the same story. -/
def c9_second_variant : StoryVariant :=
  { id := 4, title := "Signing soon indeed", url := "", publishedAt := some 40,
    eventType := "signing", tokens := ["signed"], entities := [] }

/-- The cluster created from the future-dated variant at wall-clock 10:
its first and last seen timestamps are 100. -/
def c9_created : Cluster :=
  (create_cluster st_empty c9_future_variant ["signed"] [] "signing" src_press 10 1).1

/-- The state after that creation. -/
def c9_state : EnrichState :=
  (create_cluster st_empty c9_future_variant ["signed"] [] "signing" src_press 10 1).2

/-- C9 counterexample: attaching a further variant at wall-clock time 50 to
the cluster created from a variant published at 100 leaves `last_seen_at` =
50 strictly below `first_seen_at` = 100 — the invariant fails after an
attach with a future-dated member timestamp. -/
theorem cluster_first_le_last_violated :
    (update_cluster_metadata c9_state c9_created c9_second_variant ["signed"] [] src_press 50).1.lastSeenAt <
      (update_cluster_metadata c9_state c9_created c9_second_variant ["signed"] [] src_press 50).1.firstSeenAt := by
  decide

/-! ### Claim C8: display tags assigned by classify_tags -/

/-- A category has a keyword hit in the text: some keyword of its row of
`event_keywords` occurs as a substring. -/
def category_keyword_hit (cat : String) (textLower : String) : Bool :=
  ((event_keywords.lookup cat).getD []).any (fun kw => strContains textLower kw)

theorem any_eq_decide_countP_pos {α : Type} (q : α → Bool) (ks : List α) :
    ks.any q = decide (0 < ks.countP q) := by
  induction ks with
  | nil => rfl
  | cons k ks ih =>
    by_cases h : q k = true <;>
      simp [List.any_cons, List.countP_cons, h, ih, Nat.succ_le_iff]

theorem any_map_general {α β : Type} (f : α → β) (l : List α) (p : β → Bool) :
    (l.map f).any p = l.any (fun a => p (f a)) := by
  induction l with
  | nil => rfl
  | cons a l ih => simp only [List.map_cons, List.any_cons, ih]

theorem any_key_count_matches (tl cat : String) :
    (count_event_keyword_matches tl).any (fun m => m.1 == cat) =
      event_keywords.any (fun p => p.1 == cat && p.2.any (fun kw => strContains tl kw)) := by
  unfold count_event_keyword_matches
  rw [List.any_filter, any_map_general]
  have hfun : (fun p : String × List String =>
        (decide (0 < (p.1, p.2.countP (fun kw => strContains tl kw)).2)) &&
          ((p.1, p.2.countP (fun kw => strContains tl kw)).1 == cat)) =
      (fun p : String × List String => p.1 == cat && p.2.any (fun kw => strContains tl kw)) := by
    funext p
    rw [any_eq_decide_countP_pos, Bool.and_comm]
  exact congrArg _ hfun

theorem mem_ite_singleton {α : Type} {c : Prop} [inst : Decidable c] {a x : α} :
    (x ∈ if c then [a] else ([] : List α)) ↔ c ∧ x = a := by
  by_cases h : c <;> simp [h]

theorem ite_some_eq_some {α : Type} {c : Prop} [inst : Decidable c] {y x : α} :
    (if c then some y else none) = some x ↔ c ∧ y = x := by
  by_cases h : c <;> simp [h]

theorem mem_classify_tags (tag : String) (variant : StoryVariant) (source : SourceRow) :
    tag ∈ classify_tags variant source ↔
      ((∃ p ∈ event_tag_map, p.2 = tag ∧
          event_keywords.any (fun q => q.1 == p.1 && q.2.any (fun kw => strContains (pyLower variant.title) kw)) = true) ∨
       (tag = "Barracuda" ∧
          (strContains (pyLower variant.title) "barracuda" || strContains (pyLower variant.url) "sjbarracuda") = true) ∨
       (tag = "Rumors" ∧ rumor_phrases.any (fun ph => strContains (pyLower variant.title) ph) = true ∧
          source.category = "press") ∨
       (tag = "Official" ∧ source.category = "official")) := by
  unfold classify_tags
  simp only [List.mem_append, List.mem_filterMap, ite_some_eq_some, mem_ite_singleton,
    any_key_count_matches, Bool.and_eq_true, beq_iff_eq]
  constructor
  · rintro (((⟨p, hp, hA, h2⟩ | ⟨hb, h⟩) | ⟨⟨hr, hc⟩, h⟩) | ⟨hc, h⟩)
    · exact Or.inl ⟨p, hp, h2, hA⟩
    · exact Or.inr (Or.inl ⟨h, hb⟩)
    · exact Or.inr (Or.inr (Or.inl ⟨h, hr, hc⟩))
    · exact Or.inr (Or.inr (Or.inr ⟨h, hc⟩))
  · rintro (⟨p, hp, h2, hA⟩ | ⟨h, hb⟩ | ⟨h, hr, hc⟩ | ⟨h, hc⟩)
    · exact Or.inl (Or.inl (Or.inl ⟨p, hp, hA, h2⟩))
    · exact Or.inl (Or.inl (Or.inr ⟨hb, h⟩))
    · exact Or.inl (Or.inr ⟨⟨hr, hc⟩, h⟩)
    · exact Or.inr ⟨hc, h⟩

/-- C8 (amended): the eight categories trade, injury, lineup, recall,
waiver, signing, prospect and game each contribute their display tag
exactly when the lowercased title has a keyword hit for the category; the
ninth keyword category, opinion, has no display tag; the Rumors tag is
added exactly when a rumor-language phrase is present and the source
category is press, and the Official tag exactly when the source category is
official. -/
theorem classify_tags_spec (variant : StoryVariant) (source : SourceRow) :
    ("Trade" ∈ classify_tags variant source ↔ category_keyword_hit "trade" (pyLower variant.title) = true) ∧
    ("Injury" ∈ classify_tags variant source ↔ category_keyword_hit "injury" (pyLower variant.title) = true) ∧
    ("Lineup" ∈ classify_tags variant source ↔ category_keyword_hit "lineup" (pyLower variant.title) = true) ∧
    ("Recall" ∈ classify_tags variant source ↔ category_keyword_hit "recall" (pyLower variant.title) = true) ∧
    ("Waiver" ∈ classify_tags variant source ↔ category_keyword_hit "waiver" (pyLower variant.title) = true) ∧
    ("Signing" ∈ classify_tags variant source ↔ category_keyword_hit "signing" (pyLower variant.title) = true) ∧
    ("Prospect" ∈ classify_tags variant source ↔ category_keyword_hit "prospect" (pyLower variant.title) = true) ∧
    ("Game" ∈ classify_tags variant source ↔ category_keyword_hit "game" (pyLower variant.title) = true) ∧
    (∀ tag ∈ classify_tags variant source,
      tag = "Trade" ∨ tag = "Injury" ∨ tag = "Lineup" ∨ tag = "Recall" ∨ tag = "Waiver" ∨
      tag = "Signing" ∨ tag = "Prospect" ∨ tag = "Game" ∨ tag = "Barracuda" ∨
      tag = "Rumors" ∨ tag = "Official") ∧
    ("Rumors" ∈ classify_tags variant source ↔
      (rumor_phrases.any (fun ph => strContains (pyLower variant.title) ph) = true ∧
        source.category = "press")) ∧
    ("Official" ∈ classify_tags variant source ↔ source.category = "official") := by
  refine ⟨?_, ?_, ?_, ?_, ?_, ?_, ?_, ?_, ?_, ?_, ?_⟩
  · rw [mem_classify_tags]; simp [event_tag_map, event_keywords, category_keyword_hit, List.lookup]
  · rw [mem_classify_tags]; simp [event_tag_map, event_keywords, category_keyword_hit, List.lookup]
  · rw [mem_classify_tags]; simp [event_tag_map, event_keywords, category_keyword_hit, List.lookup]
  · rw [mem_classify_tags]; simp [event_tag_map, event_keywords, category_keyword_hit, List.lookup]
  · rw [mem_classify_tags]; simp [event_tag_map, event_keywords, category_keyword_hit, List.lookup]
  · rw [mem_classify_tags]; simp [event_tag_map, event_keywords, category_keyword_hit, List.lookup]
  · rw [mem_classify_tags]; simp [event_tag_map, event_keywords, category_keyword_hit, List.lookup]
  · rw [mem_classify_tags]; simp [event_tag_map, event_keywords, category_keyword_hit, List.lookup]
  · intro tag htag
    rw [mem_classify_tags] at htag
    rcases htag with ⟨p, hp, rfl, -⟩ | ⟨rfl, -⟩ | ⟨rfl, -⟩ | ⟨rfl, -⟩
    · simp only [event_tag_map, List.mem_cons, List.not_mem_nil, or_false] at hp
      rcases hp with rfl | rfl | rfl | rfl | rfl | rfl | rfl | rfl <;> simp
    · simp
    · simp
    · simp
  · rw [mem_classify_tags]; simp [event_tag_map]
  · rw [mem_classify_tags]; simp [event_tag_map]

/-- Witness for `classify_tags_spec` at a concrete input (the ninth
conjunct has a membership hypothesis): the title "Scratched tonight" yields
the Lineup tag, which is one of the eleven possible tags. -/
theorem classify_tags_spec_witness :
    ("Lineup" ∈ classify_tags
        { id := 1, title := "Scratched tonight", url := "", publishedAt := none,
          eventType := "lineup", tokens := [], entities := [] } src_press ↔
      category_keyword_hit "lineup" (pyLower "Scratched tonight") = true) ∧
    ("Lineup" = "Trade" ∨ "Lineup" = "Injury" ∨ "Lineup" = "Lineup" ∨ "Lineup" = "Recall" ∨
      "Lineup" = "Waiver" ∨ "Lineup" = "Signing" ∨ "Lineup" = "Prospect" ∨ "Lineup" = "Game" ∨
      "Lineup" = "Barracuda" ∨ "Lineup" = "Rumors" ∨ "Lineup" = "Official") := by
  constructor
  · exact (classify_tags_spec
      { id := 1, title := "Scratched tonight", url := "", publishedAt := none,
        eventType := "lineup", tokens := [], entities := [] } src_press).2.2.1
  · exact (classify_tags_spec
      { id := 1, title := "Scratched tonight", url := "", publishedAt := none,
        eventType := "lineup", tokens := [], entities := [] } src_press).2.2.2.2.2.2.2.2.1
      "Lineup" (by decide)

/-- A variant whose title has an opinion keyword hit and nothing else. -/
def c8_variant : StoryVariant :=
  { id := 9, title := "analysis", url := "", publishedAt := none,
    eventType := "opinion", tokens := [], entities := [] }

/-- A blog source (neither press nor official). -/
def src_blog : SourceRow := { id := 2, category := "blog" }

/-- C8 counterexample: the title "analysis" has a keyword hit for the
opinion category, yet `classify_tags` returns no tags at all — the opinion
category contributes no display tag, contradicting the claim's
"every one of the nine event categories". -/
theorem classify_tags_opinion_untagged :
    category_keyword_hit "opinion" (pyLower c8_variant.title) = true ∧
    (count_event_keyword_matches (pyLower c8_variant.title)).any (fun m => m.1 == "opinion") = true ∧
    classify_tags c8_variant src_blog = [] := by
  refine ⟨by decide, by decide, by decide⟩

/-! ### Claim C1: candidate selection of match_or_create_cluster -/

theorem candPasses_score_ge (ctx : ScanCtx) (c : Cluster) (h : candPasses ctx c = true) :
    settings.cluster_similarity_threshold ≤ candS ctx c := by
  unfold candPasses is_match at h
  simp only [Bool.and_eq_true, decide_eq_true_eq] at h
  exact h.2

theorem scan_candidates_spec (ctx : ScanCtx) (cs : List Cluster) :
    ∀ (best : Option Cluster) (bestScore : ℚ),
      (best = none → bestScore = 0) →
      (∀ b, best = some b → candPasses ctx b = true ∧ bestScore = candS ctx b) →
      (((scan_candidates ctx cs best bestScore).1 = none →
          best = none ∧ (scan_candidates ctx cs best bestScore).2 = 0 ∧
          ∀ c ∈ cs, candPasses ctx c = false) ∧
        (∀ b, (scan_candidates ctx cs best bestScore).1 = some b →
          candPasses ctx b = true ∧
          (scan_candidates ctx cs best bestScore).2 = candS ctx b ∧
          (best = some b ∨ b ∈ cs) ∧
          bestScore ≤ (scan_candidates ctx cs best bestScore).2 ∧
          ∀ c ∈ cs, candPasses ctx c = true →
            candS ctx c ≤ (scan_candidates ctx cs best bestScore).2 + 0.000001)) := by
  induction cs with
  | nil =>
    intro best bestScore h0 h1
    constructor
    · intro hn
      refine ⟨hn, ?_, by simp⟩
      simpa [scan_candidates] using h0 (by simpa [scan_candidates] using hn)
    · intro b hb
      have hb' : best = some b := by simpa [scan_candidates] using hb
      obtain ⟨hp, hs⟩ := h1 b hb'
      exact ⟨hp, by simpa [scan_candidates] using hs, Or.inl hb', le_refl _, by simp⟩
  | cons c cs ih =>
    intro best bestScore h0 h1
    by_cases hcond : (candPasses ctx c && decide (bestScore + 0.000001 < candS ctx c)) = true
    · have hpass : candPasses ctx c = true := by
        simpa using (Bool.and_eq_true _ _ |>.mp hcond).1
      have hlt : bestScore + 0.000001 < candS ctx c := by
        simpa using (Bool.and_eq_true _ _ |>.mp hcond).2
      have hscan : scan_candidates ctx (c :: cs) best bestScore
          = scan_candidates ctx cs (some c) (candS ctx c) := by
        simp [scan_candidates, hcond]
      have ihres := ih (some c) (candS ctx c)
        (by intro h; cases h)
        (by
          intro b hb
          injection hb with hb
          subst hb
          exact ⟨hpass, rfl⟩)
      rw [hscan]
      constructor
      · intro hn
        exact absurd (ihres.1 hn).1 (by simp)
      · intro b hb
        obtain ⟨hbp, hbs, hmem, hmono, hall⟩ := ihres.2 b hb
        have hb0 : bestScore < candS ctx c :=
          lt_of_le_of_lt (le_add_of_nonneg_right (by norm_num)) hlt
        refine ⟨hbp, hbs, ?_, le_trans (le_of_lt hb0) hmono, ?_⟩
        · rcases hmem with h | h
          · injection h with h
            exact Or.inr (h ▸ List.mem_cons_self c cs)
          · exact Or.inr (List.mem_cons_of_mem _ h)
        · intro c' hc' hp'
          rcases List.mem_cons.mp hc' with rfl | h
          · exact le_trans hmono (le_add_of_nonneg_right (by norm_num))
          · exact hall c' h hp'
    · have hscan : scan_candidates ctx (c :: cs) best bestScore
          = scan_candidates ctx cs best bestScore := by
        simp only [scan_candidates, hcond]
        simp [Bool.not_eq_true] at hcond
        simp [hcond]
      have ihres := ih best bestScore h0 h1
      rw [hscan]
      constructor
      · intro hn
        obtain ⟨hbn, hs0, hall⟩ := ihres.1 hn
        refine ⟨hbn, hs0, ?_⟩
        intro c' hc'
        rcases List.mem_cons.mp hc' with rfl | h
        · by_contra hp
          rw [Bool.not_eq_false] at hp
          have hge := candPasses_score_ge ctx c' hp
          have hs0' : bestScore = 0 := h0 hbn
          apply hcond
          rw [hp, hs0']
          simp only [Bool.true_and, decide_eq_true_eq]
          have : (0 : ℚ) + 0.000001 < settings.cluster_similarity_threshold := by
            norm_num [settings]
          linarith
        · exact hall c' h
      · intro b hb
        obtain ⟨hbp, hbs, hmem, hmono, hall⟩ := ihres.2 b hb
        refine ⟨hbp, hbs, ?_, hmono, ?_⟩
        · rcases hmem with h | h
          · exact Or.inl h
          · exact Or.inr (List.mem_cons_of_mem _ h)
        · intro c' hc' hp'
          rcases List.mem_cons.mp hc' with rfl | h
          · have hnl : ¬ (bestScore + 0.000001 < candS ctx c') := by
              intro hlt
              apply hcond
              rw [hp']
              simpa using hlt
            have h2 : candS ctx c' ≤ bestScore + 0.000001 := le_of_not_lt hnl
            have h3 : bestScore ≤ (scan_candidates ctx cs best bestScore).2 := hmono
            linarith
          · exact hall c' h hp'

/-- C1 (amended): a variant is attached to an existing cluster only if that
cluster is a candidate (active, inside the event-type time window) passing
both the entity gate and the score gate; when no candidate passes both
gates a new cluster is created; and the chosen cluster's score S is within
0.000001 of the highest S among all passing candidates — the source
replaces the running best only when a later candidate beats it by more than
0.000001, so a candidate whose S exceeds the chosen one's by at most
0.000001 may lose to an earlier near-tie. -/
theorem match_or_create_cluster_selection
    (entityDb : List Entity) (st : EnrichState) (variant : StoryVariant)
    (tokens : List String) (entities : List Nat) (eventType : String)
    (source : SourceRow) (now : Int) (nextClusterId : Nat) :
    ((match_or_create_cluster entityDb st variant tokens entities eventType source now nextClusterId).isNew = true ↔
      ∀ c ∈ candidate_clusters st now eventType,
        candPasses (match_ctx entityDb entities tokens eventType) c = false) ∧
    ((match_or_create_cluster entityDb st variant tokens entities eventType source now nextClusterId).isNew = false →
      ∃ c ∈ candidate_clusters st now eventType,
        (match_or_create_cluster entityDb st variant tokens entities eventType source now nextClusterId).clusterId = c.id ∧
        candPasses (match_ctx entityDb entities tokens eventType) c = true ∧
        (match_or_create_cluster entityDb st variant tokens entities eventType source now nextClusterId).similarity =
          candS (match_ctx entityDb entities tokens eventType) c ∧
        ∀ c' ∈ candidate_clusters st now eventType,
          candPasses (match_ctx entityDb entities tokens eventType) c' = true →
            candS (match_ctx entityDb entities tokens eventType) c' ≤
              candS (match_ctx entityDb entities tokens eventType) c + 0.000001) := by
  obtain ⟨hnone, hsome⟩ := scan_candidates_spec (match_ctx entityDb entities tokens eventType)
    (candidate_clusters st now eventType) none 0 (fun _ => rfl) (by intro b hb; cases hb)
  rcases hsc : scan_candidates (match_ctx entityDb entities tokens eventType)
      (candidate_clusters st now eventType) none 0 with ⟨best, score⟩
  rw [hsc] at hnone hsome
  simp only [match_or_create_cluster, hsc]
  cases best with
  | none =>
    refine ⟨⟨fun _ => (hnone rfl).2.2, fun _ => rfl⟩,
      fun h => Bool.noConfusion (show (true : Bool) = false from h)⟩
  | some c =>
    obtain ⟨hp, hs, hmem, -, hall⟩ := hsome c rfl
    have hmemc : c ∈ candidate_clusters st now eventType := by
      rcases hmem with h | h
      · cases h
      · exact h
    constructor
    · constructor
      · intro h
        exact Bool.noConfusion (show (false : Bool) = true from h)
      · intro hforall
        exact absurd (hforall c hmemc) (by simp [hp])
    · intro _
      refine ⟨c, hmemc, rfl, hp, ?_, ?_⟩
      · exact hs
      · intro c' hc' hp'
        have h := hall c' hc' hp'
        rw [hs] at h
        exact h

/-- Witness for `match_or_create_cluster_selection`: with no clusters in
the database, every candidate vacuously fails and a new cluster is
created. -/
theorem match_or_create_cluster_selection_witness :
    (match_or_create_cluster [] st_empty c2_variant ["trade"] [] "trade" src_press 0 1).isNew = true := by
  refine (match_or_create_cluster_selection [] st_empty c2_variant ["trade"] [] "trade" src_press 0 1).1.mpr ?_
  intro c hc
  simp [candidate_clusters, st_empty] at hc

/-- The entity table of the C1 counterexample: players 1..20 (the new
variant's entities), 101..108 (extra members of cluster A) and 201..207
(extra members of cluster B). -/
def c1_entityDb : List Entity :=
  ((List.range 20).map (fun n => { id := n + 1, name := "P", slug := "p", entityType := "player" })) ++
  ((List.range 8).map (fun n => { id := n + 101, name := "Q", slug := "q", entityType := "player" })) ++
  ((List.range 7).map (fun n => { id := n + 201, name := "R", slug := "r", entityType := "player" }))

/-- The new variant's 20 entity ids. -/
def c1_variant_entities : List Nat := (List.range 20).map (fun n => n + 1)

/-- The new variant's 18 tokens. -/
def c1_tokensV : List String := (List.range 18).map (fun n => "t" ++ toString n)

/-- Cluster A: 21 aggregated entities of which 13 are shared with the
variant (E = 13/21), 26 tokens of which 15 are shared (T = 15/29). -/
def c1_clusterA : Cluster :=
  { id := 11, headline := "A", eventType := "trade", status := "active",
    firstSeenAt := 0, lastSeenAt := 0, sourceCount := 1,
    tokens := (List.range 15).map (fun n => "t" ++ toString n) ++
      (List.range 11).map (fun n => "a" ++ toString n),
    entitiesAgg := (List.range 13).map (fun n => n + 1) ++ (List.range 8).map (fun n => n + 101) }

/-- Cluster B: 22 aggregated entities of which 15 are shared (E = 15/22),
43 tokens of which 18 are shared (T = 18/43). -/
def c1_clusterB : Cluster :=
  { id := 12, headline := "B", eventType := "trade", status := "active",
    firstSeenAt := 0, lastSeenAt := 0, sourceCount := 1,
    tokens := (List.range 18).map (fun n => "t" ++ toString n) ++
      (List.range 25).map (fun n => "b" ++ toString n),
    entitiesAgg := (List.range 15).map (fun n => n + 1) ++ (List.range 7).map (fun n => n + 201) }

/-- The state holding clusters A then B. -/
def c1_state : EnrichState :=
  { clusters := [c1_clusterA, c1_clusterB], clusterEntities := [], clusterVariants := [],
    tags := [], clusterTags := [], nextTagId := 1 }

/-- The new variant of the C1 counterexample. -/
def c1_variant : StoryVariant :=
  { id := 21, title := "Trade", url := "", publishedAt := some 0, eventType := "trade",
    tokens := c1_tokensV, entities := c1_variant_entities }

/-- The scan context of the C1 counterexample. -/
def c1_ctx : ScanCtx := match_ctx c1_entityDb c1_variant_entities c1_tokensV "trade"

theorem entity_overlap_score_eval (a b : List Nat) (i d : Nat)
    (hne : (a.isEmpty || b.isEmpty) = false)
    (hi : (a.dedup.filter (fun x => b.contains x)).length = i)
    (hd : max a.length b.length = d) :
    entity_overlap_score a b = (i : ℚ) / (d : ℚ) := by
  simp only [entity_overlap_score, hne, Bool.false_eq_true, if_false, hi, hd]

theorem jaccard_similarity_eval (a b : List String) (i u : Nat)
    (hne : (a.isEmpty || b.isEmpty) = false)
    (hi : (a.dedup.filter (fun t => b.contains t)).length = i)
    (hu : max 1 (a ++ b).dedup.length = u) :
    jaccard_similarity a b = (i : ℚ) / (u : ℚ) := by
  simp only [jaccard_similarity, hne, Bool.false_eq_true, if_false, hi, hu]

theorem c1_EA : candE c1_ctx c1_clusterA = (13 : ℚ) / 21 :=
  entity_overlap_score_eval _ _ 13 21 (by decide) (by decide) (by decide)

theorem c1_EB : candE c1_ctx c1_clusterB = (15 : ℚ) / 22 :=
  entity_overlap_score_eval _ _ 15 22 (by decide) (by decide) (by decide)

theorem c1_TA : candT c1_ctx c1_clusterA = (15 : ℚ) / 29 :=
  jaccard_similarity_eval _ _ 15 29 (by decide) (by decide) (by decide)

theorem c1_TB : candT c1_ctx c1_clusterB = (18 : ℚ) / 43 :=
  jaccard_similarity_eval _ _ 18 43 (by decide) (by decide) (by decide)

theorem c1_KA : candK c1_ctx c1_clusterA = 1 := by
  show event_compatibility_score "trade" "trade" = 1
  rw [event_compatibility_score, if_pos rfl]

theorem c1_KB : candK c1_ctx c1_clusterB = 1 := by
  show event_compatibility_score "trade" "trade" = 1
  rw [event_compatibility_score, if_pos rfl]

theorem c1_SA : candS c1_ctx c1_clusterA = 757 / 1218 := by
  rw [candS, c1_EA, c1_TA, c1_KA]
  norm_num

theorem c1_SB : candS c1_ctx c1_clusterB = 1069 / 1720 := by
  rw [candS, c1_EB, c1_TB, c1_KB]
  norm_num

theorem c1_clustering_len : 0 < c1_ctx.clustering.length := by decide

theorem c1_passA : candPasses c1_ctx c1_clusterA = true := by
  rw [candPasses, is_match]
  rw [if_pos c1_clustering_len]
  rw [Bool.and_eq_true, decide_eq_true_eq, decide_eq_true_eq]
  rw [c1_EA, c1_SA]
  constructor <;> norm_num [settings]

theorem c1_passB : candPasses c1_ctx c1_clusterB = true := by
  rw [candPasses, is_match]
  rw [if_pos c1_clustering_len]
  rw [Bool.and_eq_true, decide_eq_true_eq, decide_eq_true_eq]
  rw [c1_EB, c1_SB]
  constructor <;> norm_num [settings]

theorem c1_scan :
    scan_candidates c1_ctx [c1_clusterA, c1_clusterB] none 0 =
      (some c1_clusterA, candS c1_ctx c1_clusterA) := by
  have hc1 : (candPasses c1_ctx c1_clusterA &&
      decide ((0 : ℚ) + 0.000001 < candS c1_ctx c1_clusterA)) = true := by
    rw [c1_passA, Bool.true_and, decide_eq_true_eq, c1_SA]
    norm_num
  have hc2 : (candPasses c1_ctx c1_clusterB &&
      decide (candS c1_ctx c1_clusterA + 0.000001 < candS c1_ctx c1_clusterB)) = false := by
    rw [c1_passB, Bool.true_and, decide_eq_false_iff_not, c1_SA, c1_SB]
    norm_num
  rw [scan_candidates, if_pos hc1, scan_candidates, if_neg (by rw [hc2]; exact Bool.false_ne_true),
    scan_candidates]

theorem c1_candidates : candidate_clusters c1_state 0 "trade" = [c1_clusterA, c1_clusterB] := by
  decide

/-- C1 counterexample: both clusters pass both gates
(S_A = 757/1218 ≈ 0.6215107, S_B = 1069/1720 ≈ 0.6215116, both E ≥ 0.50 and
S ≥ 0.62), cluster B has strictly the highest S, yet the variant is
attached to cluster A (id 11): B's margin 1/1047480 does not exceed the
0.000001 tolerance of the source's best-score update, so the claim's
"among all candidates passing both gates it picks one with the highest S"
fails at this input. -/
theorem match_or_create_cluster_not_max :
    (match_or_create_cluster c1_entityDb c1_state c1_variant c1_tokensV c1_variant_entities
        "trade" src_press 0 100).isNew = false ∧
    (match_or_create_cluster c1_entityDb c1_state c1_variant c1_tokensV c1_variant_entities
        "trade" src_press 0 100).clusterId = 11 ∧
    c1_clusterB ∈ candidate_clusters c1_state 0 "trade" ∧
    candPasses c1_ctx c1_clusterB = true ∧
    candS c1_ctx c1_clusterA < candS c1_ctx c1_clusterB := by
  have hscan := c1_scan
  rw [show c1_ctx = match_ctx c1_entityDb c1_variant_entities c1_tokensV "trade" from rfl] at hscan
  have hout : match_or_create_cluster c1_entityDb c1_state c1_variant c1_tokensV c1_variant_entities
      "trade" src_press 0 100 =
      (let ur := update_cluster_metadata c1_state c1_clusterA c1_variant c1_tokensV
          c1_variant_entities src_press 0
       let st2 := { ur.2 with clusterVariants := ur.2.clusterVariants ++
          [⟨ur.1.id, c1_variant.id, candS (match_ctx c1_entityDb c1_variant_entities c1_tokensV "trade") c1_clusterA⟩] }
       { clusterId := ur.1.id, isNew := false,
         similarity := candS (match_ctx c1_entityDb c1_variant_entities c1_tokensV "trade") c1_clusterA,
         state := st2 }) := by
    rw [match_or_create_cluster]
    rw [c1_candidates, hscan]
  refine ⟨?_, ?_, ?_, c1_passB, ?_⟩
  · rw [hout]
  · rw [hout]
    rfl
  · rw [c1_candidates]
    exact List.mem_cons_of_mem _ (List.mem_cons_self _ _)
  · rw [c1_SA, c1_SB]
    norm_num

/-! ### Claim C7: OllamaService.check_relevance
(api/app/services/ollama.py lines 64-150).

The HTTP call is modelled by its observable outcome: a timeout, a raised
transport exception (also covering a body that fails to parse as JSON),
or a response with a status code, a body text, and the optional "response"
field of the parsed JSON (`result.get("response", "")` defaults to the
empty string).  The latency is threaded as a parameter.  On every outcome
the embedded function returns a result — the source catches every
exception, which is the claim's "never raises". -/

/-- Python `s[:n]`. -/
def pyTake (s : String) (n : Nat) : String := ⟨s.data.take n⟩

/-- Python `s.startswith(pre)`. -/
def pyStartsWith (s pre : String) : Bool := pre.data.isPrefixOf s.data

/-- The `RelevanceResult` dataclass. -/
structure RelevanceResult where
  is_relevant : Bool
  response : Option String
  error : Option String
  latency_ms : Nat
  deriving Repr, DecidableEq

/-- Observable outcome of the HTTP POST to `/api/generate`. -/
inductive HttpOutcome where
  | timeout
  | exception (msg : String)
  | response (status : Nat) (bodyText : String) (responseField : Option String)
  deriving Repr, DecidableEq

/-- The source's `result.get("response", "").strip().upper()`. -/
def llmNormalize (responseField : Option String) : String :=
  pyUpper (pyStrip (responseField.getD ""))

/-- Embeds `OllamaService.check_relevance`: fail open (accept, with an
error message) on timeout, exception, non-200 status, or an ambiguous
response; parse a YES/NO prefix otherwise. -/
def check_relevance (outcome : HttpOutcome) (timeoutSeconds : Nat) (latencyMs : Nat) :
    RelevanceResult :=
  match outcome with
  | .timeout =>
    { is_relevant := true, response := none,
      error := some ("Timeout after " ++ toString timeoutSeconds ++ "s"),
      latency_ms := latencyMs }
  | .exception msg =>
    { is_relevant := true, response := none, error := some (pyTake msg 200),
      latency_ms := latencyMs }
  | .response status bodyText responseField =>
    if status ≠ 200 then
      { is_relevant := true, response := none,
        error := some ("HTTP " ++ toString status ++ ": " ++ pyTake bodyText 200),
        latency_ms := latencyMs }
    else
      let llm := llmNormalize responseField
      if pyStartsWith llm "YES" then
        { is_relevant := true, response := some (pyTake llm 10), error := none,
          latency_ms := latencyMs }
      else if pyStartsWith llm "NO" then
        { is_relevant := false, response := some (pyTake llm 10), error := none,
          latency_ms := latencyMs }
      else
        { is_relevant := true, response := some (pyTake llm 50),
          error := some ("Ambiguous LLM response: " ++ pyTake llm 50),
          latency_ms := latencyMs }

/-- C7: the LLM relevance check is total over all HTTP outcomes and fails
open: timeouts, transport exceptions, non-200 statuses, and responses whose
normalized text starts with neither YES nor NO all yield
`is_relevant = true` together with a non-null error; a 200 response has a
null error exactly when its normalized text is YES- or NO-prefixed, and is
judged not relevant exactly when the text is NO-prefixed (and not
YES-prefixed, the order the source tests). -/
theorem check_relevance_fail_open :
    (∀ tS lat, (check_relevance HttpOutcome.timeout tS lat).is_relevant = true ∧
      (check_relevance HttpOutcome.timeout tS lat).error ≠ none) ∧
    (∀ m tS lat, (check_relevance (HttpOutcome.exception m) tS lat).is_relevant = true ∧
      (check_relevance (HttpOutcome.exception m) tS lat).error ≠ none) ∧
    (∀ s t f tS lat, s ≠ 200 →
      (check_relevance (HttpOutcome.response s t f) tS lat).is_relevant = true ∧
      (check_relevance (HttpOutcome.response s t f) tS lat).error ≠ none) ∧
    (∀ t f tS lat,
      pyStartsWith (llmNormalize f) "YES" = false →
      pyStartsWith (llmNormalize f) "NO" = false →
      (check_relevance (HttpOutcome.response 200 t f) tS lat).is_relevant = true ∧
      (check_relevance (HttpOutcome.response 200 t f) tS lat).error ≠ none) ∧
    (∀ t f tS lat,
      (check_relevance (HttpOutcome.response 200 t f) tS lat).error = none ↔
        (pyStartsWith (llmNormalize f) "YES" = true ∨ pyStartsWith (llmNormalize f) "NO" = true)) ∧
    (∀ t f tS lat,
      (check_relevance (HttpOutcome.response 200 t f) tS lat).is_relevant = false ↔
        (pyStartsWith (llmNormalize f) "YES" = false ∧ pyStartsWith (llmNormalize f) "NO" = true)) := by
  refine ⟨?_, ?_, ?_, ?_, ?_, ?_⟩
  · intro tS lat
    exact ⟨rfl, by simp [check_relevance]⟩
  · intro m tS lat
    exact ⟨rfl, by simp [check_relevance]⟩
  · intro s t f tS lat hs
    constructor <;> simp [check_relevance, hs]
  · intro t f tS lat hy hn
    constructor <;> simp [check_relevance, hy, hn]
  · intro t f tS lat
    rcases hy : pyStartsWith (llmNormalize f) "YES" <;>
      rcases hn : pyStartsWith (llmNormalize f) "NO" <;>
      simp [check_relevance, hy, hn]
  · intro t f tS lat
    rcases hy : pyStartsWith (llmNormalize f) "YES" <;>
      rcases hn : pyStartsWith (llmNormalize f) "NO" <;>
      simp [check_relevance, hy, hn]

/-- Witness for `check_relevance_fail_open` at concrete inputs: an HTTP 500
and the ambiguous response "maybe" both fail open with an error recorded. -/
theorem check_relevance_fail_open_witness :
    ((check_relevance (HttpOutcome.response 500 "boom" none) 30 5).is_relevant = true ∧
      (check_relevance (HttpOutcome.response 500 "boom" none) 30 5).error ≠ none) ∧
    ((check_relevance (HttpOutcome.response 200 "ok" (some "maybe")) 30 5).is_relevant = true ∧
      (check_relevance (HttpOutcome.response 200 "ok" (some "maybe")) 30 5).error ≠ none) := by
  constructor
  · exact check_relevance_fail_open.2.2.1 500 "boom" none 30 5 (by decide)
  · exact check_relevance_fail_open.2.2.2.1 "ok" (some "maybe") 30 5 (by decide) (by decide)

/-! ### Claim C3: create_raw_item (api/app/tasks/ingest.py lines 220-284).

`normalize_url` (urllib-based) and SHA-256 (`hashlib`) are Python standard
library computations; the embedding takes them as function parameters
`normalizeUrl` and `sha256Hex` and threads them to the places the source
calls them.  The source binds the first matching row to `existing` but only
uses its existence, which the embedding expresses with `List.any`. -/

/-- Row of the `raw_items` table (fields used by ingestion). -/
structure RawItem where
  id : Nat
  sourceId : Nat
  sourceItemId : Option String
  originalUrl : String
  canonicalUrl : String
  ingestHash : String
  rawTitle : Option String
  rawDescription : Option String
  publishedAt : Option Int
  deriving Repr, DecidableEq

/-- The content string hashed into `ingest_hash`:
`f"{source_id}:{canonical_url}:{raw_title or ''}"`. -/
def ingest_hash_content (sourceId : Nat) (canonicalUrl : String) (rawTitle : Option String) : String :=
  toString sourceId ++ ":" ++ canonicalUrl ++ ":" ++ rawTitle.getD ""

/-- Embeds `create_raw_item(db, source_id, original_url, raw_title,
raw_description, source_item_id, published_at)`: `None` (and no insert) on
a missing/empty URL or on any duplicate by (source_id, source_item_id)
(checked only when a source_item_id is present), canonical_url, or
ingest_hash, in that order; otherwise insert and return exactly one new
row.  A Python `None` URL is modelled as the empty string (both falsy). -/
def create_raw_item (normalizeUrl sha256Hex : String → String) (db : List RawItem)
    (nextId sourceId : Nat) (originalUrl : String)
    (rawTitle rawDescription sourceItemId : Option String) (publishedAt : Option Int) :
    Option RawItem × List RawItem :=
  if originalUrl = "" then (none, db)
  else
    let canonicalUrl := normalizeUrl originalUrl
    let ingestHash := sha256Hex (ingest_hash_content sourceId canonicalUrl rawTitle)
    let dupFound :=
      (match sourceItemId with
       | some sid =>
         if sid = "" then false
         else db.any (fun r => decide (r.sourceId = sourceId ∧ r.sourceItemId = some sid))
       | none => false) ||
      db.any (fun r => decide (r.canonicalUrl = canonicalUrl)) ||
      db.any (fun r => decide (r.ingestHash = ingestHash))
    if dupFound then (none, db)
    else
      let item : RawItem :=
        { id := nextId, sourceId := sourceId, sourceItemId := sourceItemId,
          originalUrl := originalUrl, canonicalUrl := canonicalUrl, ingestHash := ingestHash,
          rawTitle := rawTitle, rawDescription := rawDescription, publishedAt := publishedAt }
      (some item, db ++ [item])

/-- A row already duplicates the incoming entry: same (source_id,
source_item_id) with a source_item_id present, same canonical URL, or same
ingest hash. -/
def raw_item_duplicate (normalizeUrl sha256Hex : String → String) (db : List RawItem)
    (sourceId : Nat) (originalUrl : String) (rawTitle sourceItemId : Option String) : Prop :=
  (∃ sid, sourceItemId = some sid ∧ sid ≠ "" ∧
    ∃ r ∈ db, r.sourceId = sourceId ∧ r.sourceItemId = some sid) ∨
  (∃ r ∈ db, r.canonicalUrl = normalizeUrl originalUrl) ∨
  (∃ r ∈ db, r.ingestHash =
    sha256Hex (ingest_hash_content sourceId (normalizeUrl originalUrl) rawTitle))

theorem create_raw_item_dup_bool (normalizeUrl sha256Hex : String → String) (db : List RawItem)
    (sourceId : Nat) (originalUrl : String) (rawTitle sourceItemId : Option String) :
    ((match sourceItemId with
      | some sid =>
        if sid = "" then false
        else db.any (fun r => decide (r.sourceId = sourceId ∧ r.sourceItemId = some sid))
      | none => false) ||
     db.any (fun r => decide (r.canonicalUrl = normalizeUrl originalUrl)) ||
     db.any (fun r => decide (r.ingestHash =
       sha256Hex (ingest_hash_content sourceId (normalizeUrl originalUrl) rawTitle)))) = true ↔
    raw_item_duplicate normalizeUrl sha256Hex db sourceId originalUrl rawTitle sourceItemId := by
  unfold raw_item_duplicate
  cases sourceItemId with
  | none => simp [List.any_eq_true]
  | some sid =>
    by_cases hsid : sid = ""
    · subst hsid
      simp [List.any_eq_true]
    · simp only [hsid, List.any_eq_true, decide_eq_true_eq, Bool.or_eq_true, if_neg,
        Option.some.injEq, ne_eq, not_false_iff, exists_eq_left]
      rw [or_assoc]
      simp [hsid]

/-- C3 (amended): for a non-empty original URL, `create_raw_item` returns
`None` and leaves the table unchanged exactly when a duplicate exists — by
(source_id, source_item_id) when the entry carries a source_item_id, by
canonical URL, or by ingest hash of
"{source_id}:{canonical_url}:{title-or-empty}" — and otherwise inserts
exactly one new row carrying those fields; an empty (or missing) original
URL also returns `None` without inserting.  Stated for every URL
normalizer and hash function, as the source delegates both to the standard
library. -/
theorem create_raw_item_idempotent (normalizeUrl sha256Hex : String → String)
    (db : List RawItem) (nextId sourceId : Nat) (originalUrl : String)
    (rawTitle rawDescription sourceItemId : Option String) (publishedAt : Option Int) :
    (originalUrl = "" →
      create_raw_item normalizeUrl sha256Hex db nextId sourceId originalUrl rawTitle
        rawDescription sourceItemId publishedAt = (none, db)) ∧
    (originalUrl ≠ "" →
      (raw_item_duplicate normalizeUrl sha256Hex db sourceId originalUrl rawTitle sourceItemId →
        create_raw_item normalizeUrl sha256Hex db nextId sourceId originalUrl rawTitle
          rawDescription sourceItemId publishedAt = (none, db)) ∧
      (¬ raw_item_duplicate normalizeUrl sha256Hex db sourceId originalUrl rawTitle sourceItemId →
        ∃ item,
          create_raw_item normalizeUrl sha256Hex db nextId sourceId originalUrl rawTitle
            rawDescription sourceItemId publishedAt = (some item, db ++ [item]) ∧
          item.sourceId = sourceId ∧
          item.sourceItemId = sourceItemId ∧
          item.originalUrl = originalUrl ∧
          item.canonicalUrl = normalizeUrl originalUrl ∧
          item.ingestHash =
            sha256Hex (ingest_hash_content sourceId (normalizeUrl originalUrl) rawTitle) ∧
          item.rawTitle = rawTitle ∧
          item.rawDescription = rawDescription ∧
          item.publishedAt = publishedAt)) := by
  constructor
  · intro hurl
    simp only [create_raw_item, if_pos hurl]
  · intro hurl
    constructor
    · intro hdup
      simp only [create_raw_item, if_neg hurl]
      rw [if_pos ((create_raw_item_dup_bool normalizeUrl sha256Hex db sourceId originalUrl
        rawTitle sourceItemId).mpr hdup)]
    · intro hnd
      simp only [create_raw_item, if_neg hurl]
      rw [if_neg (fun hb => hnd ((create_raw_item_dup_bool normalizeUrl sha256Hex db sourceId
        originalUrl rawTitle sourceItemId).mp hb))]
      exact ⟨_, rfl, rfl, rfl, rfl, rfl, rfl, rfl, rfl, rfl⟩

/-- Witness for `create_raw_item_idempotent` at concrete inputs (identity
normalizer and hash): on an empty table the item is inserted; inserting the
same entry again returns `None` and leaves the one row in place. -/
theorem create_raw_item_idempotent_witness :
    (create_raw_item (fun s => s) (fun s => s) [] 1 5 "" (some "T") none (some "e9") none =
      (none, [])) ∧
    (∃ item,
      create_raw_item (fun s => s) (fun s => s) [] 1 5 "http:a" (some "T") none (some "e9") none =
        (some item, [] ++ [item]) ∧
      create_raw_item (fun s => s) (fun s => s) ([] ++ [item]) 2 5 "http:a" (some "T") none
        (some "e9") none = (none, [] ++ [item])) := by
  constructor
  · exact (create_raw_item_idempotent (fun s => s) (fun s => s) [] 1 5 "" (some "T") none
      (some "e9") none).1 rfl
  · obtain ⟨item, hcreate, hfields⟩ :=
      ((create_raw_item_idempotent (fun s => s) (fun s => s) [] 1 5 "http:a" (some "T") none
        (some "e9") none).2 (by decide)).2 (by
          unfold raw_item_duplicate
          rintro (⟨sid, -, -, r, hr, -⟩ | ⟨r, hr, -⟩ | ⟨r, hr, -⟩) <;> exact absurd hr (List.not_mem_nil r))
    refine ⟨item, hcreate, ?_⟩
    exact ((create_raw_item_idempotent (fun s => s) (fun s => s) ([] ++ [item]) 2 5 "http:a"
      (some "T") none (some "e9") none).2 (by decide)).1
      (Or.inr (Or.inl ⟨item, List.mem_append_right [] (List.mem_cons_self item []),
        hfields.2.2.2.1⟩))

/-- C3 counterexample: with an empty (missing) link and an empty table —
so no duplicate of any kind exists — `create_raw_item` returns `None` and
creates no row, contradicting the claim's "otherwise it creates exactly one
new RawItem". -/
theorem create_raw_item_empty_url_no_insert :
    create_raw_item (fun s => s) (fun s => s) [] 1 5 "" (some "Title") (some "d") (some "guid")
      (some 7) = (none, []) ∧
    ¬ raw_item_duplicate (fun s => s) (fun s => s) [] 5 "" (some "Title") (some "guid") := by
  constructor
  · rfl
  · unfold raw_item_duplicate
    rintro (⟨sid, -, -, r, hr, -⟩ | ⟨r, hr, -⟩ | ⟨r, hr, -⟩) <;> exact absurd hr (List.not_mem_nil r)

/-! ### Claim C10: remove_departed_players
(api/app/tasks/sync_roster.py lines 199-231) -/

/-- The entity-side database state of the roster sync: the `entities` table
and the `cluster_entities` link rows (cluster_id, entity_id). -/
structure RosterDB where
  entities : List Entity
  clusterEntities : List (Nat × Nat)
  deriving Repr, DecidableEq

/-- One iteration of the removal loop: skip entities still on the roster,
otherwise delete the entity row (by its primary key id) together with its
ClusterEntity rows and count it. -/
def remove_step (roster : List String) (acc : RosterDB × Nat) (e : Entity) : RosterDB × Nat :=
  if roster.contains e.slug then acc
  else
    ({ entities := acc.1.entities.filter (fun x => x.id != e.id),
       clusterEntities := acc.1.clusterEntities.filter (fun ce => ce.2 != e.id) },
     acc.2 + 1)

/-- Embeds `remove_departed_players(db, current_roster_slugs)`: query the
player entities, then delete every one whose slug is not in the roster set,
with its cluster associations; returns the new state and the removal
count.  Note the query filters on `entity_type == 'player'` only. -/
def remove_departed_players (st : RosterDB) (roster : List String) : RosterDB × Nat :=
  let players := st.entities.filter (fun e => e.entityType == "player")
  players.foldl (remove_step roster) (st, 0)

theorem remove_departed_foldl (roster : List String) (ps : List Entity) :
    ∀ (st : RosterDB) (n : Nat),
      (ps.foldl (remove_step roster) (st, n)).1.entities =
        st.entities.filter (fun x => ps.all (fun e => roster.contains e.slug || x.id != e.id)) ∧
      (ps.foldl (remove_step roster) (st, n)).1.clusterEntities =
        st.clusterEntities.filter (fun ce => ps.all (fun e => roster.contains e.slug || ce.2 != e.id)) := by
  induction ps with
  | nil =>
    intro st n
    simp
  | cons e ps ih =>
    intro st n
    by_cases hc : roster.contains e.slug = true
    · rw [List.foldl_cons, remove_step, if_pos hc]
      obtain ⟨h1, h2⟩ := ih st n
      rw [h1, h2]
      constructor
      · apply List.filter_congr
        intro x _
        rw [List.all_cons, hc, Bool.true_or, Bool.true_and]
      · apply List.filter_congr
        intro ce _
        rw [List.all_cons, hc, Bool.true_or, Bool.true_and]
    · rw [List.foldl_cons, remove_step, if_neg hc]
      obtain ⟨h1, h2⟩ := ih
        { entities := st.entities.filter (fun x => x.id != e.id),
          clusterEntities := st.clusterEntities.filter (fun ce => ce.2 != e.id) } (n + 1)
      rw [h1, h2]
      rw [Bool.not_eq_true] at hc
      constructor
      · rw [List.filter_filter]
        apply List.filter_congr
        intro x _
        rw [List.all_cons, hc, Bool.false_or]
        exact Bool.and_comm _ _
      · rw [List.filter_filter]
        apply List.filter_congr
        intro ce _
        rw [List.all_cons, hc, Bool.false_or]
        exact Bool.and_comm _ _

/-- C10 (amended): after the removal pass, an entity row survives iff it
was present and its id does not match any departed player (a player-typed
entity whose slug is outside the roster set); likewise a ClusterEntity row
survives iff its entity id matches no departed player.  Consequently no
departed player survives, but the pass touches only player-typed entities:
coach and staff entities are never deleted. -/
theorem remove_departed_players_spec (st : RosterDB) (roster : List String) :
    (∀ x, x ∈ (remove_departed_players st roster).1.entities ↔
      (x ∈ st.entities ∧ ∀ e ∈ st.entities, e.entityType = "player" → e.slug ∉ roster → x.id ≠ e.id)) ∧
    (∀ ce, ce ∈ (remove_departed_players st roster).1.clusterEntities ↔
      (ce ∈ st.clusterEntities ∧ ∀ e ∈ st.entities, e.entityType = "player" → e.slug ∉ roster → ce.2 ≠ e.id)) ∧
    (∀ x ∈ (remove_departed_players st roster).1.entities,
      x.entityType = "player" → x.slug ∈ roster) := by
  obtain ⟨h1, h2⟩ := remove_departed_foldl roster
    (st.entities.filter (fun e => e.entityType == "player")) st 0
  have hkey : ∀ (m : Nat),
      (∀ e ∈ st.entities.filter (fun e => e.entityType == "player"),
        (roster.contains e.slug || m != e.id) = true) ↔
      (∀ e ∈ st.entities, e.entityType = "player" → e.slug ∉ roster → m ≠ e.id) := by
    intro m
    constructor
    · intro h e he hty hsl
      have hh := h e (List.mem_filter.mpr ⟨he, by simp [hty]⟩)
      rcases Bool.or_eq_true _ _ |>.mp hh with hr | hne
      · exact absurd (by simpa using hr) hsl
      · simpa using hne
    · intro h e he
      obtain ⟨he', hty⟩ := List.mem_filter.mp he
      by_cases hsl : e.slug ∈ roster
      · simp [hsl]
      · have hne := h e he' (by simpa using hty) hsl
        simp [hne, hsl]
  have hEnt : ∀ x, x ∈ (remove_departed_players st roster).1.entities ↔
      (x ∈ st.entities ∧ ∀ e ∈ st.entities, e.entityType = "player" → e.slug ∉ roster → x.id ≠ e.id) := by
    intro x
    rw [show (remove_departed_players st roster).1.entities =
        st.entities.filter (fun x => (st.entities.filter (fun e => e.entityType == "player")).all
          (fun e => roster.contains e.slug || x.id != e.id)) from h1]
    rw [List.mem_filter, List.all_eq_true]
    exact and_congr_right (fun _ => hkey x.id)
  refine ⟨hEnt, ?_, ?_⟩
  · intro ce
    rw [show (remove_departed_players st roster).1.clusterEntities =
        st.clusterEntities.filter (fun ce => (st.entities.filter (fun e => e.entityType == "player")).all
          (fun e => roster.contains e.slug || ce.2 != e.id)) from h2]
    rw [List.mem_filter, List.all_eq_true]
    exact and_congr_right (fun _ => hkey ce.2)
  · intro x hx hty
    by_contra hsl
    obtain ⟨hmem, hall⟩ := (hEnt x).mp hx
    exact hall x hmem hty hsl rfl

/-- A player who has left the organization. -/
def c10_player : Entity :=
  { id := 40, name := "Old Player", slug := "old-player", entityType := "player" }

/-- A coach who has left the organization. -/
def c10_coach : Entity :=
  { id := 50, name := "Head Coach", slug := "head-coach", entityType := "coach" }

/-- A roster database holding the departed player and the coach, each with
a cluster association. -/
def c10_db : RosterDB :=
  { entities := [c10_player, c10_coach], clusterEntities := [(3, 40), (3, 50)] }

/-- Witness for `remove_departed_players_spec` at a concrete input: after a
pass with roster {"x"}, the departed player and its ClusterEntity row are
gone. -/
theorem remove_departed_players_spec_witness :
    c10_player ∉ (remove_departed_players c10_db ["x"]).1.entities ∧
    (3, 40) ∉ (remove_departed_players c10_db ["x"]).1.clusterEntities := by
  have h := remove_departed_players_spec c10_db ["x"]
  constructor
  · intro hmem
    obtain ⟨-, hall⟩ := (h.1 c10_player).mp hmem
    exact hall c10_player (by decide) rfl (by decide) rfl
  · intro hmem
    obtain ⟨-, hall⟩ := (h.2.1 (3, 40)).mp hmem
    exact hall c10_player (by decide) rfl (by decide) rfl

/-- A roster database holding only the departed coach and its cluster
association. -/
def c10_coach_db : RosterDB :=
  { entities := [c10_coach], clusterEntities := [(3, 50)] }

/-- C10 counterexample: the departed coach — a non-team entity whose slug
is not in the (empty) current roster set — survives the removal pass
entirely, together with its ClusterEntity row: the pass only deletes
player-typed entities, contradicting the claim's "every non-team Entity
(player, coach, or staff)". -/
theorem remove_departed_players_keeps_coach :
    (remove_departed_players c10_coach_db []).1 = c10_coach_db ∧
    c10_coach.entityType = "coach" ∧
    c10_coach.slug ∉ ([] : List String) := by
  refine ⟨rfl, rfl, by decide⟩

/-- The entity table used in concrete relevance scenarios: the team entity
only. -/
def teamOnlyDb : List Entity :=
  [{ id := 1, name := "San Jose Sharks", slug := "san-jose-sharks", entityType := "team" }]

/-- C5: on the keyword path, rejecting the item titled "Standings update"
whose only matched entity is the team entity writes zero ValidationLog rows
(the claim and spec require exactly one row with method=keyword,
result=rejected; the source writes none). -/
theorem relevance_filter_step_writes_no_validation_log :
    (relevance_filter_step teamOnlyDb ⟨[]⟩ "Standings update" [1]).1 = false ∧
    (relevance_filter_step teamOnlyDb ⟨[]⟩ "Standings update" [1]).2.validationLogs.length = 0 := by
  constructor
  · decide
  · rfl

/-- Witness for `check_sharks_relevance_iff` at a concrete input: a title
with the keyword "sharks" is relevant even with no entities. -/
theorem check_sharks_relevance_iff_witness :
    check_sharks_relevance teamOnlyDb "Sharks win big" [] = true := by
  refine (check_sharks_relevance_iff teamOnlyDb "Sharks win big" []).mpr (Or.inl ?_)
  exact ⟨"sharks", by decide, by decide⟩

/-- Witness for `extract_entities_iff` at a concrete input: "Skinner" in a
text with Sharks context resolves to Jeff Skinner by the last-name route. -/
theorem extract_entities_iff_witness :
    7 ∈ extract_entities [{ id := 7, name := "Jeff Skinner", slug := "jeff-skinner", entityType := "player" }]
      "Sharks recap: Skinner shines" := by
  refine (extract_entities_iff.1
    [{ id := 7, name := "Jeff Skinner", slug := "jeff-skinner", entityType := "player" }]
    "Sharks recap: Skinner shines" 7).mpr ?_
  refine ⟨{ id := 7, name := "Jeff Skinner", slug := "jeff-skinner", entityType := "player" },
    by decide, rfl, Or.inr ?_⟩
  exact ⟨by decide, by decide, by decide, by decide, by decide, by decide⟩
